import Mathlib

/-!
Verification of the Perplexity feed-ingestion runner
(`services/feed-ingestion/runners/perplexity_runner.py`).

The Python module is shallowly embedded: the database session is modelled
as explicit lists of records threaded through each operation, time as a
`Nat` tick (hours for the cache layer), and the per-query / per-user work
that the orchestrator delegates to collaborators is abstracted as an
environment function returning `Except` (an `Except.error` models an
unhandled Python exception).  Strings are handled through their underlying
character lists so that every definition computes by kernel reduction.
-/

namespace FeedIngestion

/-! ### Character-list helpers (Python `str` operations used by the runner) -/

/-- Python `line.strip()`: drop whitespace from both ends. -/
def trimChars (l : List Char) : List Char :=
  ((l.dropWhile Char.isWhitespace).reverse.dropWhile Char.isWhitespace).reverse

/-- Python `line.strip('*')`: drop asterisks from both ends. -/
def stripAsterisks (l : List Char) : List Char :=
  ((l.dropWhile (· == '*')).reverse.dropWhile (· == '*')).reverse

/-- Python `line.startswith(pat)`. -/
def begins (pat l : List Char) : Bool :=
  l.take pat.length == pat

/-- Python `line.endswith(pat)`. -/
def finishes (pat l : List Char) : Bool :=
  l.drop (l.length - pat.length) == pat

/-- Python `content.split('\n')`. -/
def splitLines (l : List Char) : List (List Char) :=
  match l with
  | [] => [[]]
  | c :: rest =>
    match splitLines rest with
    | [] => [[]]
    | line :: lines =>
      if c == '\n' then [] :: line :: lines else (c :: line) :: lines

/-! ### Content Extractor (`PerplexityRunner.extract_content_from_response`) -/

/-- A candidate content item: the `current_item` dict of the Python parser,
whose only possible keys are `title`, `url` and `summary`. -/
structure ContentItem where
  title : Option String
  url : Option String
  summary : Option String
deriving Repr, DecidableEq

/-- Python truthiness of the `current_item` dict: empty iff no key was set. -/
def ContentItem.isEmptyItem (it : ContentItem) : Bool :=
  it.title.isNone && it.url.isNone && it.summary.isNone

def emptyItem : ContentItem := ⟨none, none, none⟩

/-- One iteration of the line loop in `extract_content_from_response`. -/
def extractStep (acc : List ContentItem × ContentItem) (rawLine : List Char) :
    List ContentItem × ContentItem :=
  let items := acc.1
  let cur := acc.2
  let line := trimChars rawLine
  if line.isEmpty then
    -- blank line: flush the current item if non-empty
    if cur.isEmptyItem then (items, cur) else (items ++ [cur], emptyItem)
  else if begins ['*', '*'] line && finishes ['*', '*'] line then
    -- emphasised line: flush any open item, start a new one titled by the
    -- de-starred text
    let items' := if cur.isEmptyItem then items else items ++ [cur]
    (items', ⟨some (String.mk (stripAsterisks line)), none, none⟩)
  else if begins ("http".data) line then
    (items, { cur with url := some (String.mk line) })
  else if line.length > 50 then
    (items, { cur with summary := some (String.mk line) })
  else
    (items, cur)

/-- Model of `extract_content_from_response`: the response is given as the list
of completion texts (`response["choices"][i]["message"]["content"]`); the
parser reads only the first.  An empty `choices` list yields `[]`, matching
the guard `if "choices" in response and len(response["choices"]) > 0`. -/
def extract_content_from_response (choices : List String) : List ContentItem :=
  match choices with
  | [] => []
  | content :: _ =>
    let r := (splitLines content.data).foldl extractStep ([], emptyItem)
    if r.2.isEmptyItem then r.1 else r.1 ++ [r.2]

/-- C3: the Content Extractor on the spec's example response returns exactly
one item with title "Title", url "http://example.com", and the long third
line as summary. -/
theorem extract_example_single_item :
    extract_content_from_response
      ["**Title**\nhttp://example.com\nA summary line that is long enough to exceed fifty characters easily.\n"]
      = [⟨some "Title", some "http://example.com",
          some "A summary line that is long enough to exceed fifty characters easily."⟩] := by
  decide

/-! ### Query Deriver (`generate_personalized_queries`, `generate_fallback_queries`)
and the query-selection logic of `ingest_perplexity` -/

/-- A user's interest category (`UserCategory` row); `keywords` is nullable. -/
structure UserCategory where
  id : Nat
  user_id : Nat
  category_name : String
  keywords : Option (List String)
  is_active : Bool
deriving Repr, DecidableEq

/-- A derived query dict with keys query, category_id, category_name, user_id. -/
structure QueryInfo where
  query : String
  category_id : Option Nat
  category_name : String
  user_id : Option Nat
deriving Repr, DecidableEq

/-- Python `', '.join(keywords)`. -/
def joinCommaSpace : List String → List Char
  | [] => []
  | [k] => k.data
  | k :: k2 :: rest => k.data ++ (", ".data ++ joinCommaSpace (k2 :: rest))

/-- The keyword question template of `generate_personalized_queries`. -/
def keywordQuery (kws : List String) : String :=
  String.mk ("What are the latest news and developments about ".data
    ++ joinCommaSpace kws ++ "?".data)

/-- The category-name fallback template of `generate_personalized_queries`. -/
def nameQuery (name : String) : String :=
  String.mk ("What are the latest news and developments in ".data
    ++ name.data ++ "?".data)

/-- The body of the per-category loop of `generate_personalized_queries`:
`keywords = category.keywords or []` (a null keyword list behaves as empty),
then one query dict per category. -/
def per_category_query (cat : UserCategory) : QueryInfo :=
  let kws := cat.keywords.getD []
  if kws.isEmpty then
    ⟨nameQuery cat.category_name, some cat.id, cat.category_name, some cat.user_id⟩
  else
    ⟨keywordQuery kws, some cat.id, cat.category_name, some cat.user_id⟩

def generate_personalized_queries (cats : List UserCategory) : List QueryInfo :=
  cats.map per_category_query

def generate_fallback_queries : List QueryInfo :=
  ["What are the top technology news stories today?",
   "What are the major world events happening right now?",
   "What are the latest developments in AI and machine learning?",
   "What are the trending topics in science and research?",
   "What are the key business and finance news today?"].map
    (fun q => ⟨q, none, "General", none⟩)

/-- Model of `get_user_categories`: the active categories of one user, in stored order
(`categoriesOf` stands for the `UserCategory` table restricted to a user). -/
def get_user_categories (categoriesOf : Nat → List UserCategory) (u : Nat) :
    List UserCategory :=
  (categoriesOf u).filter (·.is_active)

/-- The query-selection logic of `ingest_perplexity` (lines 286-300): explicit
queries win; otherwise a truthy user id with active categories gets
personalized queries, and every other case gets the fallback set.
`some 0` falls to the fallback branch like Python's falsy `if user_id:`. -/
def select_queries (categoriesOf : Nat → List UserCategory)
    (user_id : Option Nat) (queriesArg : Option (List QueryInfo)) : List QueryInfo :=
  match queriesArg with
  | some qs => qs
  | none =>
    match user_id with
    | none => generate_fallback_queries
    | some u =>
      if u == 0 then generate_fallback_queries
      else
        let cats := get_user_categories categoriesOf u
        if cats.isEmpty then generate_fallback_queries
        else generate_personalized_queries cats

/-- The predicate that `needle` occurs as a contiguous segment of `hay`. -/
def containsSeg (needle hay : List Char) : Prop :=
  ∃ s t, s ++ needle ++ t = hay

theorem mem_joinCommaSpace (k : String) (kws : List String) (h : k ∈ kws) :
    containsSeg k.data (joinCommaSpace kws) := by
  induction kws with
  | nil => cases h
  | cons k' rest ih =>
    cases rest with
    | nil =>
      rcases List.mem_singleton.mp h with rfl
      exact ⟨[], [], by simp [joinCommaSpace]⟩
    | cons k2 rest2 =>
      rcases List.mem_cons.mp h with rfl | hmem
      · exact ⟨[], ", ".data ++ joinCommaSpace (k2 :: rest2), by simp [joinCommaSpace]⟩
      · obtain ⟨s, t, hst⟩ := ih hmem
        refine ⟨k'.data ++ ", ".data ++ s, t, ?_⟩
        simp only [joinCommaSpace, ← hst, List.append_assoc]

theorem containsSeg_keywordQuery (k : String) (kws : List String) (h : k ∈ kws) :
    containsSeg k.data (keywordQuery kws).data := by
  obtain ⟨s, t, hst⟩ := mem_joinCommaSpace k kws h
  refine ⟨"What are the latest news and developments about ".data ++ s,
    t ++ "?".data, ?_⟩
  simp only [keywordQuery, ← hst, List.append_assoc]

/-- C6: for every active category with a non-empty keyword list, the derived
query is the question template around the comma-joined keywords, hence
contains every keyword, and carries the category's id, name and user id
verbatim. -/
theorem personalized_query_keywords (cat : UserCategory)
    (_hactive : cat.is_active = true)
    (hkw : cat.keywords.getD [] ≠ []) :
    (per_category_query cat).query = keywordQuery (cat.keywords.getD []) ∧
    (∀ k ∈ cat.keywords.getD [],
      containsSeg k.data (per_category_query cat).query.data) ∧
    (per_category_query cat).category_id = some cat.id ∧
    (per_category_query cat).category_name = cat.category_name ∧
    (per_category_query cat).user_id = some cat.user_id := by
  have hempty : (cat.keywords.getD []).isEmpty = false := by
    cases hk : cat.keywords.getD [] with
    | nil => exact absurd hk hkw
    | cons a l => simp [List.isEmpty]
  refine ⟨?_, ?_, ?_, ?_, ?_⟩ <;>
    simp only [per_category_query, hempty, Bool.false_eq_true, if_false]
  · intro k hk
    exact containsSeg_keywordQuery k _ hk

/-- Witness for C6 at a concrete category. -/
theorem personalized_query_keywords_witness :
    containsSeg "transfer news".data
      (per_category_query ⟨7, 3, "Football", some ["transfer news", "premier league"], true⟩).query.data :=
  (personalized_query_keywords
    ⟨7, 3, "Football", some ["transfer news", "premier league"], true⟩
    rfl (by decide)).2.1 "transfer news" (by decide)

/-- C5: a user with zero active categories gets exactly the same queries as
the no-user path: the five fixed fallback queries, each tagged "General"
with no category id and no user id. -/
theorem fallback_for_user_without_categories
    (categoriesOf : Nat → List UserCategory) (u : Nat)
    (hu : u ≠ 0)
    (hcats : get_user_categories categoriesOf u = []) :
    select_queries categoriesOf (some u) none = select_queries categoriesOf none none ∧
    select_queries categoriesOf (some u) none = generate_fallback_queries ∧
    generate_fallback_queries.length = 5 ∧
    ∀ q ∈ generate_fallback_queries,
      q.category_name = "General" ∧ q.category_id = none ∧ q.user_id = none := by
  have hu' : (u == 0) = false := by simp [hu]
  refine ⟨?_, ?_, by decide, by decide⟩ <;>
    simp [select_queries, hu', hcats]

/-- Witness for C5 at a concrete user with no categories. -/
theorem fallback_for_user_without_categories_witness :
    select_queries (fun _ => []) (some 1) none = generate_fallback_queries :=
  (fallback_for_user_without_categories (fun _ => []) 1 (by decide) rfl).2.1

/-! ### Response Cache (`create_cache_key`, `get_cached_response`, `cache_response`)

Time is a `Nat` counted in hours; the calendar day of instant `t` is `t / 24`.
The md5 fingerprint of the query:model:date string is modelled as the
triple it fingerprints (the spec takes the hash to be collision-free). -/

structure CacheKey where
  query : String
  model : String
  day : Nat
deriving Repr, DecidableEq

/-- Model of `create_cache_key(query, model)` at instant `now`. -/
def create_cache_key (query model : String) (now : Nat) : CacheKey :=
  ⟨query, model, now / 24⟩

/-- A `ContentCache` row; the payload type is abstract. -/
structure CacheEntry (α : Type) where
  cache_key : CacheKey
  data_source : String
  response_data : α
  expires_at : Nat
deriving Repr, DecidableEq

/-- Model of `get_cached_response`: first row matching the key, tagged "perplexity",
and strictly unexpired (`expires_at > now`). -/
def get_cached_response {α : Type} (db : List (CacheEntry α)) (key : CacheKey)
    (now : Nat) : Option α :=
  (db.find? (fun e =>
    e.cache_key == key && e.data_source == "perplexity" && decide (now < e.expires_at))).map
    (·.response_data)

/-- Model of `cache_response`: append a fresh row expiring `expire_hours` after `now`
(the source defaults `expire_hours` to 24); existing rows are never touched. -/
def cache_response {α : Type} (db : List (CacheEntry α)) (key : CacheKey)
    (payload : α) (now : Nat) (expire_hours : Nat) : List (CacheEntry α) :=
  db ++ [⟨key, "perplexity", payload, now + expire_hours⟩]

theorem find?_append_none {α : Type} (p : α → Bool) (l1 l2 : List α)
    (h : l1.find? p = none) : (l1 ++ l2).find? p = l2.find? p := by
  induction l1 with
  | nil => rfl
  | cons a l ih =>
    simp only [List.cons_append, List.find?] at h ⊢
    cases hp : p a with
    | true => simp [hp] at h
    | false =>
      simp only [hp] at h ⊢
      exact ih h

theorem same_day_lt_ttl {tput tget : Nat} (h : tget / 24 = tput / 24) :
    tget < tput + 24 := by omega

/-- C4: (1) a put followed by a same-day get for the key of the same
(query, model) returns the stored payload, provided no other unexpired row
for that key precedes it; (2) a get whose key only has expired rows signals
absent; (3) after two puts for one key, the first row answers reads until its
own expiration and the second keeps answering, with its own payload, until
its own later expiration. -/
theorem cache_put_get (α : Type) :
    (∀ (q m : String) (payload : α) (db : List (CacheEntry α)) (tput tget : Nat),
      (∀ e ∈ db, e.cache_key = create_cache_key q m tput →
        e.data_source = "perplexity" → e.expires_at ≤ tget) →
      tget / 24 = tput / 24 →
      get_cached_response
        (cache_response db (create_cache_key q m tput) payload tput 24)
        (create_cache_key q m tget) tget = some payload) ∧
    (∀ (db : List (CacheEntry α)) (key : CacheKey) (now : Nat),
      (∀ e ∈ db, e.cache_key = key → e.expires_at ≤ now) →
      get_cached_response db key now = none) ∧
    (∀ (key : CacheKey) (p1 p2 : α) (t1 t2 t : Nat),
      (t < t1 + 24 →
        get_cached_response
          (cache_response (cache_response [] key p1 t1 24) key p2 t2 24)
          key t = some p1) ∧
      (t1 + 24 ≤ t → t < t2 + 24 →
        get_cached_response
          (cache_response (cache_response [] key p1 t1 24) key p2 t2 24)
          key t = some p2)) := by
  have absent : ∀ (db : List (CacheEntry α)) (key : CacheKey) (now : Nat),
      (∀ e ∈ db, e.cache_key = key → e.expires_at ≤ now) →
      get_cached_response db key now = none := by
    intro db key now hexp
    have : db.find? (fun e =>
        e.cache_key == key && e.data_source == "perplexity" &&
          decide (now < e.expires_at)) = none := by
      rw [List.find?_eq_none]
      intro e he
      by_cases hk : e.cache_key = key
      · have := hexp e he hk
        simp [this, Nat.not_lt.mpr this]
      · simp [hk]
    simp [get_cached_response, this]
  refine ⟨?_, absent, ?_⟩
  · intro q m payload db tput tget hfresh hday
    have hkey : create_cache_key q m tget = create_cache_key q m tput := by
      simp [create_cache_key, hday]
    have hnone : db.find? (fun e =>
        e.cache_key == create_cache_key q m tget && e.data_source == "perplexity" &&
          decide (tget < e.expires_at)) = none := by
      rw [List.find?_eq_none]
      intro e he
      by_cases hk : e.cache_key = create_cache_key q m tput
      · by_cases hs : e.data_source = "perplexity"
        · have := hfresh e he hk hs
          simp [Nat.not_lt.mpr this]
        · simp [hs]
      · rw [hkey]
        simp [hk]
    rw [cache_response, get_cached_response, find?_append_none _ _ _ hnone]
    have hlt : tget < tput + 24 := same_day_lt_ttl hday
    simp [List.find?, hkey, hlt]
  · intro key p1 p2 t1 t2 t
    constructor
    · intro hlt
      simp [cache_response, get_cached_response, List.find?, hlt]
    · intro hexp hlt
      simp [cache_response, get_cached_response, List.find?,
        Nat.not_lt.mpr hexp, hlt]

/-- Witness for C4 at concrete keys, payloads and times. -/
theorem cache_put_get_witness :
    get_cached_response
      (cache_response ([] : List (CacheEntry String)) (create_cache_key "q" "m" 30)
        "payload" 30 24)
      (create_cache_key "q" "m" 40) 40 = some "payload" :=
  (cache_put_get String).1 "q" "m" "payload" [] 30 40
    (by intro e he; cases he) (by decide)

/-! ### Item Upserter (`PerplexityRunner.save_feed_items`) -/

/-- The fields of the `DataSource` record the upserter and orchestrator read. -/
structure DataSourceRec where
  id : Nat
  name : String
  display_name : String
  is_active : Bool
deriving Repr, DecidableEq

/-- A persisted `FeedItem` row as written by this pipeline (its `title`
column is always set: either the candidate's title or "Untitled").  The
`raw_*` fields model the user/category provenance merged into `raw_data`. -/
structure FeedItemRec where
  title : String
  summary : String
  url : String
  source : String
  data_source_id : Nat
  category : String
  tags : List String
  raw_user_id : Option Nat
  raw_category_id : Option Nat
  raw_category_name : Option String
  published_at : Nat
  updated_at : Nat
deriving Repr, DecidableEq

/-- The existence filter `FeedItem.title == item.get("title") AND
FeedItem.data_source_id == data_source.id`.  A candidate without a title
compares as SQL `title IS NULL`, which matches none of the non-null titles
this pipeline writes. -/
def fiMatches (itemTitle : Option String) (dsId : Nat) (fi : FeedItemRec) : Bool :=
  match itemTitle with
  | none => false
  | some t => fi.title == t && fi.data_source_id == dsId

/-- Update the first element satisfying `p` (the `.first()` row). -/
def updateFirst {α : Type} (p : α → Bool) (f : α → α) : List α → List α
  | [] => []
  | x :: xs => if p x then f x :: xs else x :: updateFirst p f xs

/-- Python truthiness of `if user_id:` (None and 0 are falsy). -/
def natTruthy : Option Nat → Bool
  | none => false
  | some u => u != 0

/-- The fresh row built in the create branch of `save_feed_items`. -/
def newFeedItem (now : Nat) (ds : DataSourceRec) (cname : String)
    (cid uid : Option Nat) (item : ContentItem) : FeedItemRec :=
  { title := item.title.getD "Untitled"
    summary := item.summary.getD ""
    url := item.url.getD ""
    source := "Perplexity AI"
    data_source_id := ds.id
    category := cname
    tags := if cname == "General" then ["ai", "perplexity"]
            else ["ai", "perplexity", cname.toLower]
    raw_user_id := if natTruthy uid then uid else none
    raw_category_id := if natTruthy uid then cid else none
    raw_category_name := if natTruthy uid then some cname else none
    published_at := now
    updated_at := now }

/-- One iteration of the item loop of `save_feed_items`: state is the
`FeedItem` table plus the (created, updated) counters.  A created row is
visible to later lookups of the same batch (the session autoflushes pending
adds before each query). -/
def saveStep (now : Nat) (ds : DataSourceRec) (cname : String)
    (cid uid : Option Nat) (acc : List FeedItemRec × Nat × Nat)
    (item : ContentItem) : List FeedItemRec × Nat × Nat :=
  let db := acc.1
  if db.any (fiMatches item.title ds.id) then
    (updateFirst (fiMatches item.title ds.id)
      (fun fi => { fi with
        summary := item.summary.getD fi.summary
        url := item.url.getD fi.url
        updated_at := now }) db,
     acc.2.1, acc.2.2 + 1)
  else
    (db ++ [newFeedItem now ds cname cid uid item], acc.2.1 + 1, acc.2.2)

/-- Python `category_info.get("category_name", "General")` with a None dict. -/
def catName (catInfo : Option QueryInfo) : String :=
  match catInfo with
  | some ci => ci.category_name
  | none => "General"

/-- Python `category_info.get("category_id")` with a None dict. -/
def catId (catInfo : Option QueryInfo) : Option Nat :=
  match catInfo with
  | some ci => ci.category_id
  | none => none

/-- Python `category_info.get("user_id")` with a None dict. -/
def catUid (catInfo : Option QueryInfo) : Option Nat :=
  match catInfo with
  | some ci => ci.user_id
  | none => none

/-- Model of `save_feed_items(content_items, data_source, category_info)`: returns the
new table together with `{"created": _, "updated": _}`. -/
def save_feed_items (now : Nat) (items : List ContentItem) (ds : DataSourceRec)
    (catInfo : Option QueryInfo) (db : List FeedItemRec) :
    List FeedItemRec × Nat × Nat :=
  items.foldl (saveStep now ds (catName catInfo) (catId catInfo) (catUid catInfo))
    (db, 0, 0)

theorem any_fiMatches_false_of_fresh (db : List FeedItemRec) (t : String) (dsId : Nat)
    (h : ∀ fi ∈ db, ¬(fi.title = t ∧ fi.data_source_id = dsId)) :
    db.any (fiMatches (some t) dsId) = false := by
  rw [List.any_eq_false]
  intro fi hfi
  have := h fi hfi
  simp only [fiMatches, Bool.and_eq_true, beq_iff_eq]
  tauto

theorem any_fiMatches_none (db : List FeedItemRec) (dsId : Nat) :
    db.any (fiMatches none dsId) = false := by
  rw [List.any_eq_false]
  intro fi _
  simp [fiMatches]

theorem newFeedItem_title (now : Nat) (ds : DataSourceRec) (cname : String)
    (cid uid : Option Nat) (item : ContentItem) (t : String)
    (ht : item.title = some t) :
    (newFeedItem now ds cname cid uid item).title = t := by
  simp [newFeedItem, ht]

theorem newFeedItem_dsid (now : Nat) (ds : DataSourceRec) (cname : String)
    (cid uid : Option Nat) (item : ContentItem) :
    (newFeedItem now ds cname cid uid item).data_source_id = ds.id := rfl

/-- The create branch of one `save_feed_items` step. -/
theorem saveStep_create (now : Nat) (ds : DataSourceRec) (cname : String)
    (cid uid : Option Nat) (db : List FeedItemRec) (c u : Nat) (item : ContentItem)
    (h : db.any (fiMatches item.title ds.id) = false) :
    saveStep now ds cname cid uid (db, c, u) item =
      (db ++ [newFeedItem now ds cname cid uid item], c + 1, u) := by
  simp [saveStep, h]

/-- The update branch of one `save_feed_items` step. -/
theorem saveStep_update (now : Nat) (ds : DataSourceRec) (cname : String)
    (cid uid : Option Nat) (db : List FeedItemRec) (c u : Nat) (item : ContentItem)
    (h : db.any (fiMatches item.title ds.id) = true) :
    (saveStep now ds cname cid uid (db, c, u) item).2 = (c, u + 1) := by
  simp [saveStep, h]

/-- C1: for a fresh titled candidate, the first `save_feed_items` call counts
created=1, updated=0; repeating the very same call on the resulting table
counts created=0, updated=1; and one call with two distinct fresh titles
counts created=2, updated=0. -/
theorem save_feed_items_upsert_counts (n1 n2 n3 : Nat) (ds : DataSourceRec)
    (catInfo : Option QueryInfo) (db : List FeedItemRec)
    (item item1 item2 : ContentItem) (t t1 t2 : String)
    (ht : item.title = some t)
    (hfresh : ∀ fi ∈ db, ¬(fi.title = t ∧ fi.data_source_id = ds.id))
    (ht1 : item1.title = some t1) (ht2 : item2.title = some t2)
    (hne : t1 ≠ t2)
    (hfresh1 : ∀ fi ∈ db, ¬(fi.title = t1 ∧ fi.data_source_id = ds.id))
    (hfresh2 : ∀ fi ∈ db, ¬(fi.title = t2 ∧ fi.data_source_id = ds.id)) :
    (save_feed_items n1 [item] ds catInfo db).2 = (1, 0) ∧
    (save_feed_items n2 [item] ds catInfo
      (save_feed_items n1 [item] ds catInfo db).1).2 = (0, 1) ∧
    (save_feed_items n3 [item1, item2] ds catInfo db).2 = (2, 0) := by
  have hany : db.any (fiMatches item.title ds.id) = false := by
    rw [ht]; exact any_fiMatches_false_of_fresh db t ds.id hfresh
  have hany1 : db.any (fiMatches item1.title ds.id) = false := by
    rw [ht1]; exact any_fiMatches_false_of_fresh db t1 ds.id hfresh1
  have hsave1 : save_feed_items n1 [item] ds catInfo db =
      (db ++ [newFeedItem n1 ds (catName catInfo) (catId catInfo) (catUid catInfo) item],
       1, 0) := by
    rw [save_feed_items, List.foldl_cons, saveStep_create _ _ _ _ _ _ _ _ _ hany]
    rfl
  refine ⟨by rw [hsave1], ?_, ?_⟩
  · rw [hsave1]
    have hmatch : (db ++ [newFeedItem n1 ds (catName catInfo) (catId catInfo)
        (catUid catInfo) item]).any (fiMatches item.title ds.id) = true := by
      rw [List.any_append, ht]
      have : fiMatches (some t) ds.id
          (newFeedItem n1 ds (catName catInfo) (catId catInfo) (catUid catInfo) item)
          = true := by
        simp [fiMatches, newFeedItem_title _ _ _ _ _ _ _ ht, newFeedItem_dsid]
      simp [this]
    rw [save_feed_items, List.foldl_cons,
      show ∀ r : List FeedItemRec × Nat × Nat, List.foldl
        (saveStep n2 ds (catName catInfo) (catId catInfo) (catUid catInfo)) r [] = r
        from fun r => rfl]
    exact saveStep_update _ _ _ _ _ _ _ _ _ hmatch
  · have hany2 : (db ++ [newFeedItem n3 ds (catName catInfo) (catId catInfo)
        (catUid catInfo) item1]).any (fiMatches item2.title ds.id) = false := by
      rw [List.any_append, ht2]
      have hdb := any_fiMatches_false_of_fresh db t2 ds.id hfresh2
      have hnew : fiMatches (some t2) ds.id
          (newFeedItem n3 ds (catName catInfo) (catId catInfo) (catUid catInfo) item1)
          = false := by
        simp [fiMatches, newFeedItem_title _ _ _ _ _ _ _ ht1]
        exact fun h => absurd h hne
      simp [hdb, hnew]
    rw [save_feed_items, List.foldl_cons, saveStep_create _ _ _ _ _ _ _ _ _ hany1,
      List.foldl_cons, saveStep_create _ _ _ _ _ _ _ _ _ hany2]
    rfl

/-- A concrete resolved data source, for witnesses. -/
def ds0 : DataSourceRec :=
  ⟨1, "perplexity", "Perplexity AI", true⟩

/-- Witness for C1 at a concrete item, data source and empty table. -/
theorem save_feed_items_upsert_counts_witness :
    (save_feed_items 0 [⟨some "A", none, none⟩] ds0 none []).2 = (1, 0) ∧
    (save_feed_items 1 [⟨some "A", none, none⟩] ds0 none
      (save_feed_items 0 [⟨some "A", none, none⟩] ds0 none []).1).2 = (0, 1) ∧
    (save_feed_items 2 [⟨some "A", none, none⟩, ⟨some "B", none, none⟩]
      ds0 none []).2 = (2, 0) :=
  save_feed_items_upsert_counts 0 1 2 ds0 none []
    ⟨some "A", none, none⟩ ⟨some "A", none, none⟩ ⟨some "B", none, none⟩
    "A" "A" "B" rfl (by intro fi h; cases h) rfl rfl (by decide)
    (by intro fi h; cases h) (by intro fi h; cases h)

/-- C10: a candidate without a title never matches an existing row (its
lookup compares against SQL NULL), so it always creates a fresh "Untitled"
row and is never counted as updated; two titleless candidates therefore add
two more rows with the same (title "Untitled", data-source) pair to whatever
table they run against. -/
theorem titleless_items_always_create (n : Nat) (ds : DataSourceRec)
    (catInfo : Option QueryInfo) (db : List FeedItemRec)
    (item1 item2 : ContentItem)
    (h1 : item1.title = none) (h2 : item2.title = none) :
    (save_feed_items n [item1, item2] ds catInfo db).2 = (2, 0) ∧
    ((save_feed_items n [item1, item2] ds catInfo db).1.filter
        (fun fi => fi.title == "Untitled" && fi.data_source_id == ds.id)).length =
      (db.filter
        (fun fi => fi.title == "Untitled" && fi.data_source_id == ds.id)).length + 2 := by
  have hany1 : db.any (fiMatches item1.title ds.id) = false := by
    rw [h1]; exact any_fiMatches_none db ds.id
  have hany2 : (db ++ [newFeedItem n ds (catName catInfo) (catId catInfo)
      (catUid catInfo) item1]).any (fiMatches item2.title ds.id) = false := by
    rw [h2]; exact any_fiMatches_none _ ds.id
  have hsave : save_feed_items n [item1, item2] ds catInfo db =
      (db ++ [newFeedItem n ds (catName catInfo) (catId catInfo) (catUid catInfo) item1,
              newFeedItem n ds (catName catInfo) (catId catInfo) (catUid catInfo) item2],
       2, 0) := by
    rw [save_feed_items, List.foldl_cons, saveStep_create _ _ _ _ _ _ _ _ _ hany1,
      List.foldl_cons, saveStep_create _ _ _ _ _ _ _ _ _ hany2]
    simp [List.append_assoc]
  refine ⟨by rw [hsave], ?_⟩
  rw [hsave]
  simp [List.filter_append, newFeedItem, h1, h2]

/-- Witness for C10: two titleless candidates against a table that already
holds an "Untitled" row for the same data source. -/
theorem titleless_items_always_create_witness :
    (save_feed_items 5 [⟨none, none, none⟩, ⟨none, none, none⟩] ds0 none
      [newFeedItem 0 ds0 "General" none none ⟨none, none, none⟩]).2 = (2, 0) :=
  (titleless_items_always_create 5 ds0 none
    [newFeedItem 0 ds0 "General" none none ⟨none, none, none⟩]
    ⟨none, none, none⟩ ⟨none, none, none⟩ rfl rfl).1

/-! ### Job Orchestrator (`ingest_perplexity`, `ingest_perplexity_for_all_users`)

Each entry point is modelled as a function of an environment that supplies
what its collaborators return: the resolved data source (`none` when the
source is absent or inactive), the category table, and the outcome of the
work delegated per query / per user.  `Except.error msg` stands for an
unhandled Python exception carrying message `msg`.  The result records the
returned value, the job row this invocation wrote (`none` when it wrote no
job row), and whether `runner.db.close()` ran before control left the task. -/

/-- An `IngestionJob` row (the fields this module writes). -/
structure IngestionJob where
  job_type : String
  status : String
  started_at : Nat
  completed_at : Option Nat
  error_message : Option String
  items_created : Nat
  items_updated : Nat
  params_user_id : Option Nat
  params_queries : List String
  params_users_count : Option Nat
  data_source_id : Nat
deriving Repr, DecidableEq

/-- Environment of one `ingest_perplexity` invocation.  `process` abstracts
the body of the per-query loop (progress report, `query_perplexity`,
extraction, upsert): `.ok (c, u)` is that query's contribution to the counts
(`(0, 0)` when the API returned nothing), `.error msg` an unhandled
exception escaping the loop. -/
structure SingleEnv where
  dataSource : Option DataSourceRec
  categoriesOf : Nat → List UserCategory
  process : QueryInfo → Except String (Nat × Nat)
  now : Nat

/-- What a single-run invocation hands back to the task queue. -/
inductive SingleOutcome where
  | errorResult (msg : String)
  | completed (created updated queries_processed : Nat) (user_id : Option Nat)
  | retryRaised (countdown max_retries : Nat)
deriving Repr, DecidableEq

/-- The `for i, query_info in enumerate(queries)` loop accumulating counts,
stopped by the first unhandled exception. -/
def run_loop (process : QueryInfo → Except String (Nat × Nat)) :
    List QueryInfo → Nat → Nat → Except String (Nat × Nat)
  | [], tc, tu => .ok (tc, tu)
  | q :: rest, tc, tu =>
    match process q with
    | .error e => .error e
    | .ok (c, u) => run_loop process rest (tc + c) (tu + u)

structure SingleRunResult where
  outcome : SingleOutcome
  job : Option IngestionJob
  sessionClosed : Bool
deriving Repr, DecidableEq

/-- Model of `ingest_perplexity(user_id, queries)`.  The data-source-missing return
happens before the `try/finally` that closes the session, so that path
leaves `sessionClosed = false` and writes no job row. -/
def ingest_perplexity (env : SingleEnv) (user_id : Option Nat)
    (queriesArg : Option (List QueryInfo)) : SingleRunResult :=
  match env.dataSource with
  | none => ⟨.errorResult "Data source not found", none, false⟩
  | some ds =>
    let queries := select_queries env.categoriesOf user_id queriesArg
    let job0 : IngestionJob :=
      { job_type := "perplexity"
        status := "running"
        started_at := env.now
        completed_at := none
        error_message := none
        items_created := 0
        items_updated := 0
        params_user_id := user_id
        params_queries := queries.map (·.query)
        params_users_count := none
        data_source_id := ds.id }
    match run_loop env.process queries 0 0 with
    | .ok (tc, tu) =>
      ⟨.completed tc tu queries.length user_id,
       some { job0 with
         status := "completed", completed_at := some env.now,
         items_created := tc, items_updated := tu },
       true⟩
    | .error e =>
      ⟨.retryRaised 60 3,
       some { job0 with
         status := "failed", completed_at := some env.now,
         error_message := some e },
       true⟩

/-- What `result.get(timeout=300)` yields for one user's sub-run: `exc` when
it raises (hitting the 5-minute timeout, or an exception propagated from the
sub-task); `res none` when it returns a value without usable counts (a falsy
value or a dict lacking `"created"`, such as `{"error": ...}`); `res (some
(c, u))` when it returns a dict with counts. -/
inductive SubRunResult where
  | exc (msg : String)
  | res (counts : Option (Nat × Nat))
deriving Repr, DecidableEq

/-- A `UserDB` row as seen by the fan-out. -/
structure UserRec where
  id : Nat
  username : String
deriving Repr, DecidableEq

/-- Environment of one `ingest_perplexity_for_all_users` invocation:
`users` is the distinct list of users with an active category. -/
structure FanEnv where
  dataSource : Option DataSourceRec
  users : List UserRec
  subRun : UserRec → SubRunResult
  now : Nat

inductive FanOutcome where
  | errorResult (msg : String)
  | completed (created updated users_processed total_users : Nat)
  | retryRaised (countdown max_retries : Nat)
deriving Repr, DecidableEq

structure FanRunResult where
  outcome : FanOutcome
  job : Option IngestionJob
  sessionClosed : Bool
deriving Repr, DecidableEq

/-- The per-user loop: a raising sub-run aborts it; a result with counts is
accumulated and bumps `users_processed`; any other result falls through the
`if user_result and "created" in user_result` guard and is skipped. -/
def fan_loop (sub : UserRec → SubRunResult) :
    List UserRec → Nat → Nat → Nat → Except String (Nat × Nat × Nat)
  | [], tc, tu, up => .ok (tc, tu, up)
  | u :: rest, tc, tu, up =>
    match sub u with
    | .exc e => .error e
    | .res none => fan_loop sub rest tc tu up
    | .res (some (c, uu)) => fan_loop sub rest (tc + c) (tu + uu) (up + 1)

/-- Model of `ingest_perplexity_for_all_users()`. -/
def ingest_perplexity_for_all_users (env : FanEnv) : FanRunResult :=
  match env.dataSource with
  | none => ⟨.errorResult "Data source not found", none, false⟩
  | some ds =>
    let job0 : IngestionJob :=
      { job_type := "perplexity_all_users"
        status := "running"
        started_at := env.now
        completed_at := none
        error_message := none
        items_created := 0
        items_updated := 0
        params_user_id := none
        params_queries := []
        params_users_count := some env.users.length
        data_source_id := ds.id }
    match fan_loop env.subRun env.users 0 0 0 with
    | .ok (tc, tu, up) =>
      ⟨.completed tc tu up env.users.length,
       some { job0 with
         status := "completed", completed_at := some env.now,
         items_created := tc, items_updated := tu },
       true⟩
    | .error e =>
      ⟨.retryRaised 60 3,
       some { job0 with
         status := "failed", completed_at := some env.now,
         error_message := some e },
       true⟩

/-- A concrete environment whose data source does not resolve. -/
def envNoDS : SingleEnv := ⟨none, fun _ => [], fun _ => .ok (0, 0), 0⟩

/-- Its fan-out counterpart. -/
def fenvNoDS : FanEnv := ⟨none, [], fun _ => .res none, 0⟩

/-- C7: when the data source cannot be resolved, both entry points return
the `{"error": "Data source not found"}` result immediately and write no
job row. -/
theorem data_source_missing_no_job (env : SingleEnv) (fenv : FanEnv)
    (user_id : Option Nat) (queriesArg : Option (List QueryInfo))
    (h : env.dataSource = none) (hf : fenv.dataSource = none) :
    ingest_perplexity env user_id queriesArg =
      ⟨.errorResult "Data source not found", none, false⟩ ∧
    ingest_perplexity_for_all_users fenv =
      ⟨.errorResult "Data source not found", none, false⟩ := by
  constructor
  · simp [ingest_perplexity, h]
  · simp [ingest_perplexity_for_all_users, hf]

/-- Witness for C7 at concrete environments. -/
theorem data_source_missing_no_job_witness :
    ingest_perplexity envNoDS none none =
      ⟨.errorResult "Data source not found", none, false⟩ ∧
    ingest_perplexity_for_all_users fenvNoDS =
      ⟨.errorResult "Data source not found", none, false⟩ :=
  data_source_missing_no_job envNoDS fenvNoDS none none rfl rfl

/-- C8: an unhandled exception escaping the per-query loop leaves the job row
with status "failed", a non-null error message and a completion timestamp,
and raises a retry with a 60-second countdown and at most 3 attempts. -/
theorem run_exception_fails_job_and_retries (env : SingleEnv)
    (user_id : Option Nat) (queriesArg : Option (List QueryInfo))
    (ds : DataSourceRec) (msg : String)
    (hds : env.dataSource = some ds)
    (hloop : run_loop env.process
      (select_queries env.categoriesOf user_id queriesArg) 0 0 = .error msg) :
    (ingest_perplexity env user_id queriesArg).outcome = .retryRaised 60 3 ∧
    ((ingest_perplexity env user_id queriesArg).job.map (·.status))
      = some "failed" ∧
    ((ingest_perplexity env user_id queriesArg).job.map (·.error_message))
      = some (some msg) ∧
    ((ingest_perplexity env user_id queriesArg).job.map (·.completed_at))
      = some (some env.now) := by
  refine ⟨?_, ?_, ?_, ?_⟩ <;> simp [ingest_perplexity, hds, hloop]

/-- A concrete environment whose per-query work raises. -/
def envFail : SingleEnv := ⟨some ds0, fun _ => [], fun _ => .error "boom", 7⟩

/-- Witness for C8 at a concrete failing environment. -/
theorem run_exception_fails_job_and_retries_witness :
    (ingest_perplexity envFail none none).outcome = .retryRaised 60 3 ∧
    ((ingest_perplexity envFail none none).job.map (·.status)) = some "failed" :=
  let h := run_exception_fails_job_and_retries envFail none none ds0 "boom" rfl rfl
  ⟨h.1, h.2.1⟩

/-- C9 fails on the code: the early data-source-missing return happens before
the `try/finally`, so that exit path never reaches `runner.db.close()`. -/
theorem session_leak_on_missing_source :
    (ingest_perplexity envNoDS none none).sessionClosed = false := rfl

/-- C9 amended: the session is released on the exit paths of the processing
loop — normal completion and the failure/retry path — but not on the early
data-source-missing error return, which leaves it unreleased. -/
theorem session_release_paths (env : SingleEnv) (user_id : Option Nat)
    (queriesArg : Option (List QueryInfo)) (ds : DataSourceRec)
    (hds : env.dataSource = some ds) :
    (ingest_perplexity env user_id queriesArg).sessionClosed = true ∧
    ∀ env2 : SingleEnv, env2.dataSource = none →
      (ingest_perplexity env2 user_id queriesArg).sessionClosed = false := by
  constructor
  · cases hr : run_loop env.process
      (select_queries env.categoriesOf user_id queriesArg) 0 0 with
    | ok p =>
      obtain ⟨tc, tu⟩ := p
      simp [ingest_perplexity, hds, hr]
    | error e => simp [ingest_perplexity, hds, hr]
  · intro env2 h2
    simp [ingest_perplexity, h2]

/-- Witness for the amended C9: the retry exit path does close the session. -/
theorem session_release_paths_witness :
    (ingest_perplexity envFail none none).sessionClosed = true :=
  (session_release_paths envFail none none ds0 rfl).1

/-- The counts `user_result["created"]`/`["updated"]` when the guard admits the result. -/
def usableCounts (s : SubRunResult) : Option (Nat × Nat) :=
  match s with
  | .res (some p) => some p
  | _ => none

/-- Whether `result.get(timeout=300)` raised for this user. -/
def isExc : SubRunResult → Bool
  | .exc _ => true
  | _ => false

/-- A fan-out whose single user's sub-run returns `{"error": ...}`. -/
def fenvSkip : FanEnv := ⟨some ds0, [⟨1, "alice"⟩], fun _ => .res none, 0⟩

/-- C2 fails on the code: a sub-run result without usable counts (such as
`{"error": ...}`) does not fail the fan-out job; the user is silently
skipped (`users_processed` stays 0 of 1) and the job completes. -/
theorem fanout_skips_unusable_result :
    (ingest_perplexity_for_all_users fenvSkip).outcome = .completed 0 0 0 1 ∧
    ((ingest_perplexity_for_all_users fenvSkip).job.map (·.status))
      = some "completed" := by
  constructor <;> rfl

theorem fan_loop_error (sub : UserRec → SubRunResult) (msg : String)
    (u : UserRec) (post pre : List UserRec) :
    ∀ tc tu up, (∀ v ∈ pre, isExc (sub v) = false) → sub u = .exc msg →
    fan_loop sub (pre ++ u :: post) tc tu up = .error msg := by
  induction pre with
  | nil =>
    intro tc tu up _ hu
    simp [fan_loop, hu]
  | cons v pre ih =>
    intro tc tu up hpre hu
    have hv := hpre v (by simp)
    cases hsv : sub v with
    | exc e => rw [hsv] at hv; simp [isExc] at hv
    | res c =>
      cases c with
      | none =>
        simp only [List.cons_append, fan_loop, hsv]
        exact ih _ _ _ (fun w hw => hpre w (by simp [hw])) hu
      | some p =>
        obtain ⟨c1, u1⟩ := p
        simp only [List.cons_append, fan_loop, hsv]
        exact ih _ _ _ (fun w hw => hpre w (by simp [hw])) hu

theorem fan_loop_ok (sub : UserRec → SubRunResult) (users : List UserRec) :
    ∀ tc tu up, (∀ v ∈ users, isExc (sub v) = false) →
    fan_loop sub users tc tu up =
      .ok (tc + ((users.filterMap (fun v => usableCounts (sub v))).map Prod.fst).sum,
           tu + ((users.filterMap (fun v => usableCounts (sub v))).map Prod.snd).sum,
           up + (users.filterMap (fun v => usableCounts (sub v))).length) := by
  induction users with
  | nil => intro tc tu up _; simp [fan_loop]
  | cons v rest ih =>
    intro tc tu up h
    have hv := h v (by simp)
    cases hsv : sub v with
    | exc e => rw [hsv] at hv; simp [isExc] at hv
    | res c =>
      cases c with
      | none =>
        simp only [fan_loop, hsv]
        rw [ih _ _ _ (fun w hw => h w (by simp [hw]))]
        simp [List.filterMap_cons, usableCounts, hsv]
      | some p =>
        obtain ⟨c1, u1⟩ := p
        simp only [fan_loop, hsv]
        rw [ih _ _ _ (fun w hw => h w (by simp [hw]))]
        simp only [List.filterMap_cons, usableCounts, hsv, List.map_cons,
          List.sum_cons, List.length_cons, Except.ok.injEq, Prod.mk.injEq]
        refine ⟨by omega, by omega, by omega⟩

/-- C2 amended: a raising sub-run (the 5-minute timeout, or an exception
propagated from the sub-task) fails the whole fan-out job with the error
captured and raises a 60s/3-attempts retry; but a sub-run that returns a
value without usable counts is silently skipped — it is not counted as
processed and the fan-out continues and completes. -/
theorem fanout_error_handling (env : FanEnv) (ds : DataSourceRec)
    (hds : env.dataSource = some ds) :
    (∀ pre u post msg, env.users = pre ++ u :: post →
      (∀ v ∈ pre, isExc (env.subRun v) = false) → env.subRun u = .exc msg →
      (ingest_perplexity_for_all_users env).outcome = .retryRaised 60 3 ∧
      ((ingest_perplexity_for_all_users env).job.map (·.status)) = some "failed" ∧
      ((ingest_perplexity_for_all_users env).job.map (·.error_message))
        = some (some msg)) ∧
    ((∀ v ∈ env.users, isExc (env.subRun v) = false) →
      (ingest_perplexity_for_all_users env).outcome =
        .completed
          (((env.users.filterMap (fun v => usableCounts (env.subRun v))).map
            Prod.fst).sum)
          (((env.users.filterMap (fun v => usableCounts (env.subRun v))).map
            Prod.snd).sum)
          ((env.users.filterMap (fun v => usableCounts (env.subRun v))).length)
          env.users.length ∧
      ((ingest_perplexity_for_all_users env).job.map (·.status))
        = some "completed") := by
  constructor
  · intro pre u post msg husers hpre hu
    have hloop : fan_loop env.subRun env.users 0 0 0 = .error msg := by
      rw [husers]
      exact fan_loop_error env.subRun msg u post pre 0 0 0 hpre hu
    refine ⟨?_, ?_, ?_⟩ <;> simp [ingest_perplexity_for_all_users, hds, hloop]
  · intro hall
    have hloop := fan_loop_ok env.subRun env.users 0 0 0 hall
    simp only [Nat.zero_add] at hloop
    refine ⟨?_, ?_⟩ <;> simp [ingest_perplexity_for_all_users, hds, hloop]

/-- A fan-out whose second user's sub-run raises (e.g. hits the timeout). -/
def fenvExc : FanEnv :=
  ⟨some ds0, [⟨1, "alice"⟩, ⟨2, "bob"⟩],
   fun u => if u.id == 1 then .res (some (2, 1)) else .exc "timeout", 0⟩

/-- Witness for the amended C2 at a concrete fan-out. -/
theorem fanout_error_handling_witness :
    (ingest_perplexity_for_all_users fenvExc).outcome = .retryRaised 60 3 :=
  ((fanout_error_handling fenvExc ds0 rfl).1 [⟨1, "alice"⟩] ⟨2, "bob"⟩ []
    "timeout" rfl (by decide) rfl).1

end FeedIngestion
